import Mathlib

/-!
Verification development for the RAG-Chatbot-OCI-23ai repository.

The repository has three Python source files:
* `config_loader.py` — reads nine environment variables and returns two
  configuration dictionaries (`oci_config`, `db_config`), validating that
  every value is non-empty.
* `ingest.py` — `run_ingestion` loads `.txt` documents from `./data`,
  splits them into chunks, initializes the OCI embeddings client, connects
  to the Oracle database, initializes the `OracleVS` vector store on table
  `rag_documents`, drops any existing `rag_documents` table, adds the
  chunks (embedding them via the OCI API and storing them), and verifies
  by counting the stored rows.  Any exception is caught, an error report
  is printed, and the process exits with status 1.
* `main_app.py` — a Streamlit app.  `initialize_services` (decorated with
  `@st.cache_resource`) loads the configuration, initializes the
  embeddings client, the LLM, the database connection, checks that
  `rag_documents` exists, and builds the retriever (top-3 similarity) and
  the `RetrievalQA` chain with a fixed prompt template.  Each submitted
  question is answered by one `qa_chain.invoke` call; an exception during
  query processing is caught and its message displayed, and the app keeps
  serving further requests.

The model below is a shallow embedding: external library calls (document
loading, text splitting, embedding, database operations, LLM generation)
are represented by abstract data carried in a `World` structure, and each
script is a function from a world and an initial database state to a
trace of events, a final database state, and an exit outcome.
-/

/-- The process environment, as read by `os.getenv`: a variable is either
unset (`none`) or set to a string (possibly empty). -/
structure Env where
  get : String → Option String

/-- Python truthiness of an `os.getenv` result: `None` and the empty
string are falsy (`if not value: raise ...` in `config_loader.py`). -/
def truthy : Option String → Bool
  | none => false
  | some s => !s.isEmpty

/-- The `oci_config` dictionary built in `config_loader.load_config`
(lines 45-53): six keys, each value read verbatim from the corresponding
environment variable, in Python dict insertion order. -/
def oci_config (env : Env) : List (String × Option String) :=
  [("user", env.get "OCI_USER_ID"),
   ("tenancy", env.get "OCI_TENANCY_ID"),
   ("region", env.get "OCI_REGION"),
   ("fingerprint", env.get "OCI_KEY_FINGERPRINT"),
   ("key_file", env.get "OCI_PRIVATE_KEY_PATH"),
   ("compartment_id", env.get "COMPARTMENT_ID")]

/-- The `db_config` dictionary built in `config_loader.load_config`
(lines 57-61): three keys, values read verbatim from the environment. -/
def db_config (env : Env) : List (String × Option String) :=
  [("DB_USER", env.get "DB_USER"),
   ("DB_PASSWORD", env.get "DB_PASSWORD"),
   ("DB_DSN", env.get "DB_DSN")]

/-- The `ValueError` message raised for a falsy value in `oci_config`
(config_loader.py lines 70-73), naming the offending dictionary key. -/
def ociErrMsg (k : String) : String :=
  "Missing required OCI configuration: " ++ k ++
    ". Please check your .env file and ensure all OCI_* variables are set."

/-- The `ValueError` message raised for a falsy value in `db_config`
(config_loader.py lines 78-81), naming the offending dictionary key. -/
def dbErrMsg (k : String) : String :=
  "Missing required database configuration: " ++ k ++
    ". Please check your .env file and ensure all DB_* variables are set."

/-- `config_loader.load_config`: builds the two dictionaries, then scans
`oci_config` and afterwards `db_config` in insertion order, raising a
`ValueError` (modelled as `Except.error` with the exact message) at the
first falsy value; on success returns the pair of dictionaries. -/
def load_config (env : Env) :
    Except String (List (String × Option String) × List (String × Option String)) :=
  let oci := oci_config env
  let db := db_config env
  match oci.find? (fun kv => !truthy kv.2) with
  | some kv => .error (ociErrMsg kv.1)
  | none =>
    match db.find? (fun kv => !truthy kv.2) with
    | some kv => .error (dbErrMsg kv.1)
    | none => .ok (oci, db)

/-- The nine environment variables `load_config` reads, in the order in
which their values are validated. -/
def requiredEnvVars : List String :=
  ["OCI_USER_ID", "OCI_TENANCY_ID", "OCI_REGION", "OCI_KEY_FINGERPRINT",
   "OCI_PRIVATE_KEY_PATH", "COMPARTMENT_ID", "DB_USER", "DB_PASSWORD", "DB_DSN"]

/-- The validation order of `load_config` as (dictionary key, environment
variable) pairs: the six OCI entries first, then the three DB entries. -/
def configPairs : List (String × String) :=
  [("user", "OCI_USER_ID"), ("tenancy", "OCI_TENANCY_ID"),
   ("region", "OCI_REGION"), ("fingerprint", "OCI_KEY_FINGERPRINT"),
   ("key_file", "OCI_PRIVATE_KEY_PATH"), ("compartment_id", "COMPARTMENT_ID"),
   ("DB_USER", "DB_USER"), ("DB_PASSWORD", "DB_PASSWORD"), ("DB_DSN", "DB_DSN")]

/-- A document produced by `DirectoryLoader` (`ingest.py` lines 66-72):
its source path and page content. -/
structure Doc where
  source : String
  content : String
deriving DecidableEq, Repr

/-- The `rag_documents` table: `none` when the table does not exist,
`some rows` when it exists and holds the given chunk texts. -/
abbrev Db := Option (List String)

/-- Observable events of one `run_ingestion` execution. -/
inductive IEvent where
  /-- `load_config` returned successfully (step 1). -/
  | configLoad
  /-- `loader.load()` read the `.txt` files under `./data` (step 2). -/
  | loadDocs
  /-- the no-documents warning was printed (lines 75-76). -/
  | emptyWarning
  /-- `text_splitter.split_documents` produced the chunks (step 3). -/
  | splitDocs
  /-- the `OCIGenAIEmbeddings` client was constructed (step 4). -/
  | embedInit
  /-- `oracledb.connect` succeeded (step 5). -/
  | dbConnect
  /-- the `OracleVS` vector store was constructed (step 6). -/
  | vsInit
  /-- `DROP TABLE rag_documents PURGE` succeeded (step 7). -/
  | dropTable
  /-- the drop raised `oracledb.DatabaseError`, caught and ignored (step 7). -/
  | dropSkipped
  /-- `add_documents` called the OCI embedding API for the chunks (step 8). -/
  | embedChunks
  /-- `add_documents` stored the chunks in `rag_documents` (step 8). -/
  | storeChunks
  /-- `SELECT COUNT(*) FROM rag_documents` returned `n` (step 9). -/
  | verifyCount (n : Nat)
  /-- the `except` handler printed the error details (lines 239-249). -/
  | errorReport
deriving DecidableEq, Repr

/-- The five pipeline stages named by the specification: load, split,
embed, store, verify. -/
def isStageI : IEvent → Bool
  | .loadDocs | .splitDocs | .embedChunks | .storeChunks | .verifyCount _ => true
  | _ => false

/-- Events that contact the embedding API, the LLM, or the database. -/
def isExternalI : IEvent → Bool
  | .embedInit | .dbConnect | .vsInit | .dropTable | .dropSkipped
  | .embedChunks | .storeChunks | .verifyCount _ => true
  | _ => false

/-- The environment `run_ingestion` executes in: the process environment,
the behaviour of the document loader and splitter, whether the `OracleVS`
constructor creates the table when absent, and which external calls raise
an exception. -/
structure IWorld where
  env : Env
  /-- the documents `DirectoryLoader("./data", glob="**/*.txt").load()` finds. -/
  docs : List Doc
  /-- the chunking performed by `RecursiveCharacterTextSplitter.split_documents`. -/
  split : List Doc → List String
  /-- whether the `OracleVS` constructor creates `rag_documents` when it
  does not exist (the in-code comment says it handles table creation). -/
  vsCreatesTable : Bool
  loadRaises : Bool
  splitRaises : Bool
  embedInitRaises : Bool
  connectRaises : Bool
  vsInitRaises : Bool
  addRaises : Bool
  verifyRaises : Bool

/-- How the `try` block of `run_ingestion` ended. -/
inductive BodyEnd where
  /-- the block ran to completion. -/
  | finished
  /-- an exception propagated to the `except Exception` handler. -/
  | raised
  /-- `sys.exit n` was called inside the block (`SystemExit` is not an
  `Exception`, so it bypasses the handler). -/
  | exited (n : Nat)
deriving DecidableEq, Repr

/-- The `try` block of `run_ingestion` (`ingest.py` lines 43-237): the
event trace it produced, the database state it left, and how it ended. -/
def ingestBody (w : IWorld) (db0 : Db) : List IEvent × Db × BodyEnd :=
  match load_config w.env with
  | .error _ => ([], db0, .raised)
  | .ok _ =>
    if w.loadRaises then ([.configLoad], db0, .raised)
    else if w.docs.isEmpty then
      ([.configLoad, .loadDocs, .emptyWarning], db0, .exited 1)
    else if w.splitRaises then ([.configLoad, .loadDocs], db0, .raised)
    else
      let chunks := w.split w.docs
      -- line 113 divides by `len(chunks)`: with zero chunks the average
      -- computation raises ZeroDivisionError
      if chunks.isEmpty then
        ([.configLoad, .loadDocs, .splitDocs], db0, .raised)
      else if w.embedInitRaises then
        ([.configLoad, .loadDocs, .splitDocs], db0, .raised)
      else if w.connectRaises then
        ([.configLoad, .loadDocs, .splitDocs, .embedInit], db0, .raised)
      else if w.vsInitRaises then
        ([.configLoad, .loadDocs, .splitDocs, .embedInit, .dbConnect], db0, .raised)
      else
        let db1 : Db := if w.vsCreatesTable then some (db0.getD []) else db0
        let dropEv : IEvent := if db1.isSome then .dropTable else .dropSkipped
        let t7 : List IEvent :=
          [.configLoad, .loadDocs, .splitDocs, .embedInit, .dbConnect, .vsInit, dropEv]
        if w.addRaises then (t7, none, .raised)
        else if w.verifyRaises then
          (t7 ++ [.embedChunks, .storeChunks], some chunks, .raised)
        else
          (t7 ++ [.embedChunks, .storeChunks, .verifyCount chunks.length],
           some chunks, .finished)

/-- Exit behaviour of a script process. -/
inductive ExitCode where
  /-- the script ran to completion. -/
  | normal
  /-- the process terminated with this exit status. -/
  | code (n : Nat)
deriving DecidableEq, Repr

/-- The observable result of one `run_ingestion` execution. -/
structure IResult where
  trace : List IEvent
  db : Db
  exit : ExitCode
deriving Repr

/-- `run_ingestion` (`ingest.py` lines 31-250): runs the `try` block; an
exception reaching the handler prints the error report and calls
`sys.exit(1)`; a `sys.exit` inside the block terminates the process
directly.  The handler performs no retry and no database operation. -/
def run_ingestion (w : IWorld) (db0 : Db) : IResult :=
  match ingestBody w db0 with
  | (t, db, .finished) => ⟨t, db, .normal⟩
  | (t, db, .raised) => ⟨t ++ [.errorReport], db, .code 1⟩
  | (t, db, .exited n) => ⟨t, db, .code n⟩

/-! ## The Streamlit chat app (`main_app.py`) -/

/-- Observable events of one script run of `main_app.py`. -/
inductive AEvent where
  /-- `load_config` returned successfully (initialize_services step 1). -/
  | configLoad
  /-- the `OCIGenAIEmbeddings` client was constructed (step 2). -/
  | embedInit
  /-- the `OCIGenAI` LLM client was constructed (step 3). -/
  | llmInit
  /-- `oracledb.connect` succeeded (step 4). -/
  | dbConnect
  /-- `SELECT COUNT(*) FROM rag_documents` returned `n` (lines 116-120). -/
  | tableCheck (n : Nat)
  /-- the count raised `oracledb.DatabaseError`: the table does not exist,
  so an error is shown and `sys.exit(1)` is called (lines 121-123). -/
  | tableCheckFailed
  /-- the `OracleVS` vector store was constructed (step 5). -/
  | vsInit
  /-- the top-3 similarity retriever was created (step 6). -/
  | retrieverInit
  /-- the `RetrievalQA` chain was built (step 8). -/
  | chainInit
  /-- `initialize_services` returned its `(qa_chain, vector_store)` pair. -/
  | initDone
  /-- `qa_chain.invoke` was called for a submitted question (line 273). -/
  | invokeAttempt
deriving DecidableEq, Repr

/-- Events of `main_app.py` that contact the embedding API, the LLM, or
the database. -/
def isExternalA : AEvent → Bool
  | .embedInit | .llmInit | .dbConnect | .tableCheck _ | .tableCheckFailed
  | .vsInit | .invokeAttempt => true
  | _ => false

/-- Events emitted inside `initialize_services` (service initialization
work, as opposed to query processing). -/
def isInitEvent : AEvent → Bool
  | .invokeAttempt => false
  | _ => true

/-- The `(qa_chain, vector_store)` pair returned by `initialize_services`:
the retriever is configured with `k = 3` over table `rag_documents`. -/
structure Services where
  k : Nat
  tableName : String
deriving DecidableEq, Repr

/-- The environment `main_app.py` executes in: the process environment,
which external calls raise, and the behaviour of the similarity ranking
and of the LLM. -/
structure AWorld where
  env : Env
  embedInitRaises : Bool
  llmInitRaises : Bool
  connectRaises : Bool
  vsInitRaises : Bool
  /-- whether `qa_chain.invoke` raises for a given question. -/
  invokeFail : String → Bool
  /-- the message of the exception raised by `qa_chain.invoke`. -/
  errMsg : String → String
  /-- similarity ordering of the stored chunks for a query, performed by
  the Oracle vector search; the retriever keeps the top `k`. -/
  rank : String → List String → List String
  /-- the LLM answer for a fully assembled prompt. -/
  generate : String → String

/-- `initialize_services` (`main_app.py` lines 37-201): loads the
configuration, constructs the embeddings client, the LLM, the database
connection, verifies that `rag_documents` exists, constructs the vector
store, the top-3 retriever, the prompt and the `RetrievalQA` chain.  Any
exception ends the run with nothing returned (`st.error` + `st.stop`, or
`sys.exit(1)` for a missing table); thanks to `@st.cache_resource` a
successful result is cached (modelled in `script_run` below). -/
def initialize_services (w : AWorld) (db : Db) : List AEvent × Option Services :=
  match load_config w.env with
  | .error _ => ([], none)
  | .ok _ =>
    if w.embedInitRaises then ([.configLoad], none)
    else if w.llmInitRaises then ([.configLoad, .embedInit], none)
    else if w.connectRaises then ([.configLoad, .embedInit, .llmInit], none)
    else
      match db with
      | none => ([.configLoad, .embedInit, .llmInit, .dbConnect, .tableCheckFailed], none)
      | some rows =>
        if w.vsInitRaises then
          ([.configLoad, .embedInit, .llmInit, .dbConnect, .tableCheck rows.length], none)
        else
          ([.configLoad, .embedInit, .llmInit, .dbConnect, .tableCheck rows.length,
            .vsInit, .retrieverInit, .chainInit, .initDone],
           some ⟨3, "rag_documents"⟩)

/-- The prompt template of `main_app.py` (lines 157-168) with the
`context` and `question` variables substituted, as `PromptTemplate.format`
does when the chain assembles the request (the instruction text is
abbreviated; only its fixed shape around the two variables matters to the
theorems below). -/
def prompt_template (ctx q : String) : String :=
  "You are a helpful AI assistant answering questions about Oracle Cloud Infrastructure (OCI).\n\n" ++
  "Use the following pieces of context to answer the question at the end.\n" ++
  "Do NOT make up an answer or use information outside of the provided context.\n\n" ++
  "Context:\n" ++ ctx ++ "\n\nQuestion: " ++ q ++ "\n\nHelpful Answer:"

/-- The dictionary returned by `qa_chain.invoke`: the assembled prompt
request, the generated `result`, and the `source_documents` used. -/
structure RagResult where
  request : String
  result : String
  source_documents : List String
deriving DecidableEq, Repr

/-- `qa_chain.invoke({"query": q})` (`main_app.py` line 273): embeds the
question, retrieves the `k` most similar chunks from `rag_documents`,
stuffs them into the prompt, and calls the LLM; it may raise. -/
def qa_invoke (w : AWorld) (svc : Services) (db : Db) (q : String) :
    Except String RagResult :=
  if w.invokeFail q then .error (w.errMsg q)
  else
    let docs := (w.rank q (db.getD [])).take svc.k
    let ctx := String.intercalate "\n\n" docs
    let req := prompt_template ctx q
    .ok ⟨req, w.generate req, docs⟩

/-- What one script run of `main_app.py` rendered for the user. -/
inductive Output where
  /-- `initialize_services` failed: the run stopped before any question
  handling. -/
  | initFailed
  /-- the user pressed the button with an empty question (lines 337-339). -/
  | warnedEmpty
  /-- the answer and its source documents were displayed (lines 284-320). -/
  | answered (r : RagResult)
  /-- the `except` branch displayed the exception message (lines 322-335). -/
  | errorShown (m : String)
deriving DecidableEq, Repr

/-- The `st.cache_resource` cache that survives across script runs. -/
structure AppSession where
  cache : Option Services
deriving DecidableEq, Repr

/-- The query-processing block of `main_app.py` (lines 254-339): an empty
question only draws a warning; otherwise `qa_chain.invoke` is called
exactly once, its answer displayed on success and its exception message
displayed on failure.  No database write happens in either branch. -/
def process_q (w : AWorld) (svc : Services) (db : Db) (q : String) :
    List AEvent × Output :=
  if q = "" then ([], .warnedEmpty)
  else
    match qa_invoke w svc db q with
    | .error m => ([.invokeAttempt], .errorShown m)
    | .ok r => ([.invokeAttempt], .answered r)

/-- The observable result of one script run of `main_app.py`. -/
structure RunResult where
  session : AppSession
  db : Db
  events : List AEvent
  output : Output
deriving Repr

/-- One Streamlit script run of `main_app.py` for a submitted question:
`initialize_services()` is called, but `@st.cache_resource` returns the
cached pair when one exists, skipping the body; on a cache miss the body
runs and a successful result is stored in the cache.  If initialization
fails the run stops; otherwise the question is processed.  The database
is never written. -/
def script_run (w : AWorld) (db : Db) (st : AppSession) (q : String) : RunResult :=
  match st.cache with
  | some svc =>
    let (evs, out) := process_q w svc db q
    ⟨st, db, evs, out⟩
  | none =>
    match initialize_services w db with
    | (tr, none) => ⟨st, db, tr, .initFailed⟩
    | (tr, some svc) =>
      let (evs, out) := process_q w svc db q
      ⟨⟨some svc⟩, db, tr ++ evs, out⟩

/-- A sequence of request/response cycles: each submitted question causes
one script run, threading the `st.cache_resource` cache and the database
state; returns the per-run (events, output) list, the final session and
the final database state. -/
def app_runs (w : AWorld) :
    Db → AppSession → List String → List (List AEvent × Output) × AppSession × Db
  | db, st, [] => ([], st, db)
  | db, st, q :: qs =>
    let r := script_run w db st q
    let rest := app_runs w r.db r.session qs
    ((r.events, r.output) :: rest.1, rest.2)

/-! ## Helper definitions for the theorems -/

/-- The event trace of a `run_ingestion` execution whose `try` block ran
to completion: the drop event is `dropTable` when the table exists at
step 7 and `dropSkipped` (caught `DatabaseError`) when it does not. -/
def ingestSuccessTrace (w : IWorld) (db0 : Db) : List IEvent :=
  [.configLoad, .loadDocs, .splitDocs, .embedInit, .dbConnect, .vsInit,
   (if ((if w.vsCreatesTable then some (db0.getD []) else db0) : Db).isSome then
      IEvent.dropTable else IEvent.dropSkipped),
   .embedChunks, .storeChunks, .verifyCount (w.split w.docs).length]

/-- The services `initialize_services` returns on success: the top-3
retriever over the `rag_documents` table. -/
def svc0 : Services := ⟨3, "rag_documents"⟩

/-- The output `main_app.py` renders for a question, as a function of the
world, the database contents, and that question alone. -/
def canonical_output (w : AWorld) (db : Db) (q : String) : Output :=
  match (initialize_services w db).2 with
  | none => .initFailed
  | some svc => (process_q w svc db q).2

/-- Sessions reachable by the app: the `st.cache_resource` cache is
either empty or holds the deterministic result of a successful
`initialize_services` run. -/
def GoodSession (w : AWorld) (db : Db) (st : AppSession) : Prop :=
  st.cache = none ∨ (st.cache = some svc0 ∧ (initialize_services w db).2 = some svc0)

/-- Number of completed `initialize_services` runs across a sequence of
request/response cycles. -/
def countInitDone (rs : List (List AEvent × Output)) : Nat :=
  ((rs.map Prod.fst).flatten).count .initDone

/-- A process environment with every variable set (to `"x"`). -/
def envAll : Env := ⟨fun _ => some "x"⟩

/-- A process environment with no variable set. -/
def envNone : Env := ⟨fun _ => none⟩

/-- An ingestion world where every external call succeeds: one document,
split into one chunk. -/
def iwOk : IWorld :=
  ⟨envAll, [⟨"data/a.txt", "hello"⟩], fun _ => ["hello"], true,
   false, false, false, false, false, false, false⟩

/-- Like `iwOk`, but `add_documents` raises. -/
def iwAdd : IWorld := { iwOk with addRaises := true }

/-- Like `iwOk`, but `./data` holds no `.txt` file. -/
def iwEmpty : IWorld := { iwOk with docs := [] }

/-- A chat-app world where every external call succeeds: similarity
ranking returns the stored chunks in order, the LLM answers `"answer"`. -/
def awOk : AWorld :=
  ⟨envAll, false, false, false, false, fun _ => false, fun _ => "",
   fun _ chunks => chunks, fun _ => "answer"⟩

/-- Like `awOk`, but `qa_chain.invoke` raises (with message `"db down"`)
exactly on the question `"boom"`. -/
def awFail : AWorld :=
  { awOk with invokeFail := fun q => q == "boom", errMsg := fun _ => "db down" }

/-! ## Configuration loading (claims C3 and C8) -/

/-- C3: `load_config` builds its result solely from environment
variables: on success it returns a pair of dictionaries, the OCI
configuration with exactly the six keys `user`, `tenancy`, `region`,
`fingerprint`, `key_file`, `compartment_id` and the database
configuration with exactly the three keys `DB_USER`, `DB_PASSWORD`,
`DB_DSN`, each value taken verbatim from the corresponding environment
variable. -/
theorem C3_config_from_env (env : Env) (oci db : List (String × Option String))
    (h : load_config env = .ok (oci, db)) :
    oci = [("user", env.get "OCI_USER_ID"), ("tenancy", env.get "OCI_TENANCY_ID"),
           ("region", env.get "OCI_REGION"), ("fingerprint", env.get "OCI_KEY_FINGERPRINT"),
           ("key_file", env.get "OCI_PRIVATE_KEY_PATH"),
           ("compartment_id", env.get "COMPARTMENT_ID")] ∧
    db = [("DB_USER", env.get "DB_USER"), ("DB_PASSWORD", env.get "DB_PASSWORD"),
          ("DB_DSN", env.get "DB_DSN")] := by
  unfold load_config at h
  dsimp only at h
  split at h
  · exact absurd h (by simp)
  · split at h
    · exact absurd h (by simp)
    · simp only [Except.ok.injEq, Prod.mk.injEq] at h
      exact ⟨h.1.symm, h.2.symm⟩

/-- Witness for C3 at an environment with all nine variables set. -/
theorem C3_config_from_env_witness :
    load_config envAll = .ok (oci_config envAll, db_config envAll) ∧
    (oci_config envAll =
      [("user", envAll.get "OCI_USER_ID"), ("tenancy", envAll.get "OCI_TENANCY_ID"),
       ("region", envAll.get "OCI_REGION"), ("fingerprint", envAll.get "OCI_KEY_FINGERPRINT"),
       ("key_file", envAll.get "OCI_PRIVATE_KEY_PATH"),
       ("compartment_id", envAll.get "COMPARTMENT_ID")] ∧
     db_config envAll =
      [("DB_USER", envAll.get "DB_USER"), ("DB_PASSWORD", envAll.get "DB_PASSWORD"),
       ("DB_DSN", envAll.get "DB_DSN")]) :=
  ⟨rfl, C3_config_from_env envAll (oci_config envAll) (db_config envAll) rfl⟩

/-- C8: `load_config` raises `ValueError` if and only if at least one of
the nine required environment variables is unset or empty; when all nine
are non-empty it returns normally, and the raised message names the
(dictionary key of the) first missing variable in validation order. -/
theorem C8_load_config_validation (env : Env) :
    ((∃ msg, load_config env = .error msg) ↔
      ∃ v ∈ requiredEnvVars, truthy (env.get v) = false) ∧
    (∀ msg, load_config env = .error msg →
      ∃ kv, configPairs.find? (fun p => !truthy (env.get p.2)) = some kv ∧
        (msg = ociErrMsg kv.1 ∨ msg = dbErrMsg kv.1)) := by
  cases h1 : truthy (env.get "OCI_USER_ID")
  · simp_all [load_config, oci_config, db_config, requiredEnvVars, configPairs, List.find?]
  · cases h2 : truthy (env.get "OCI_TENANCY_ID")
    · simp_all [load_config, oci_config, db_config, requiredEnvVars, configPairs, List.find?]
    · cases h3 : truthy (env.get "OCI_REGION")
      · simp_all [load_config, oci_config, db_config, requiredEnvVars, configPairs, List.find?]
      · cases h4 : truthy (env.get "OCI_KEY_FINGERPRINT")
        · simp_all [load_config, oci_config, db_config, requiredEnvVars, configPairs,
            List.find?]
        · cases h5 : truthy (env.get "OCI_PRIVATE_KEY_PATH")
          · simp_all [load_config, oci_config, db_config, requiredEnvVars, configPairs,
              List.find?]
          · cases h6 : truthy (env.get "COMPARTMENT_ID")
            · simp_all [load_config, oci_config, db_config, requiredEnvVars, configPairs,
                List.find?]
            · cases h7 : truthy (env.get "DB_USER")
              · simp_all [load_config, oci_config, db_config, requiredEnvVars, configPairs,
                  List.find?]
              · cases h8 : truthy (env.get "DB_PASSWORD")
                · simp_all [load_config, oci_config, db_config, requiredEnvVars, configPairs,
                    List.find?]
                · cases h9 : truthy (env.get "DB_DSN")
                  · simp_all [load_config, oci_config, db_config, requiredEnvVars,
                      configPairs, List.find?]
                  · simp_all [load_config, oci_config, db_config, requiredEnvVars,
                      configPairs, List.find?]

/-- Witness for C8 at the empty environment: the error names `user`, the
key of the first missing variable. -/
theorem C8_load_config_validation_witness :
    load_config envNone = .error (ociErrMsg "user") ∧
    ∃ kv, configPairs.find? (fun p => !truthy (envNone.get p.2)) = some kv ∧
      (ociErrMsg "user" = ociErrMsg kv.1 ∨ ociErrMsg "user" = dbErrMsg kv.1) :=
  ⟨rfl, (C8_load_config_validation envNone).2 (ociErrMsg "user") rfl⟩

/-! ## Ingestion (claims C1, C2, C9, C10 and half of C7) -/

/-- If the `try` block of `run_ingestion` ran to completion, it produced
the full success trace and left `rag_documents` holding exactly the
chunks of this run. -/
theorem ingestBody_finished_eq (w : IWorld) (db0 : Db)
    (h : (ingestBody w db0).2.2 = .finished) :
    ingestBody w db0 = (ingestSuccessTrace w db0, some (w.split w.docs), .finished) := by
  rcases hlc : load_config w.env with msg | cfg
  · exact absurd h (by simp [ingestBody, hlc])
  · by_cases h1 : w.loadRaises
    · exact absurd h (by simp [ingestBody, hlc, h1])
    · by_cases h2 : w.docs.isEmpty
      · exact absurd h (by simp [ingestBody, hlc, h1, h2])
      · by_cases h3 : w.splitRaises
        · exact absurd h (by simp [ingestBody, hlc, h1, h2, h3])
        · by_cases h4 : (w.split w.docs).isEmpty
          · exact absurd h (by simp [ingestBody, hlc, h1, h2, h3, h4])
          · by_cases h5 : w.embedInitRaises
            · exact absurd h (by simp [ingestBody, hlc, h1, h2, h3, h4, h5])
            · by_cases h6 : w.connectRaises
              · exact absurd h (by simp [ingestBody, hlc, h1, h2, h3, h4, h5, h6])
              · by_cases h7 : w.vsInitRaises
                · exact absurd h (by simp [ingestBody, hlc, h1, h2, h3, h4, h5, h6, h7])
                · by_cases h8 : w.addRaises
                  · exact absurd h
                      (by simp [ingestBody, hlc, h1, h2, h3, h4, h5, h6, h7, h8])
                  · by_cases h9 : w.verifyRaises
                    · exact absurd h
                        (by simp [ingestBody, hlc, h1, h2, h3, h4, h5, h6, h7, h8, h9])
                    · simp [ingestBody, ingestSuccessTrace, hlc, h1, h2, h3, h4, h5, h6,
                        h7, h8, h9]

/-- When the `try` block of `run_ingestion` raises, no event was emitted
twice (no step is ever retried), and the single error report is new. -/
theorem ingestBody_raised_nodup (w : IWorld) (db0 : Db) :
    ((ingestBody w db0).1 ++ [IEvent.errorReport]).Nodup := by
  rcases hlc : load_config w.env with msg | cfg
  · simp [ingestBody, hlc]
  · by_cases h1 : w.loadRaises
    · simp [ingestBody, hlc, h1]
    · by_cases h2 : w.docs.isEmpty
      · simp [ingestBody, hlc, h1, h2]
      · by_cases h3 : w.splitRaises
        · simp [ingestBody, hlc, h1, h2, h3]
        · by_cases h4 : (w.split w.docs).isEmpty
          · simp [ingestBody, hlc, h1, h2, h3, h4]
          · by_cases h5 : w.embedInitRaises
            · simp [ingestBody, hlc, h1, h2, h3, h4, h5]
            · by_cases h6 : w.connectRaises
              · simp [ingestBody, hlc, h1, h2, h3, h4, h5, h6]
              · by_cases h7 : w.vsInitRaises
                · simp [ingestBody, hlc, h1, h2, h3, h4, h5, h6, h7]
                · by_cases h8 : w.addRaises
                  · by_cases hv : w.vsCreatesTable <;> rcases db0 with _ | rows <;>
                      simp [ingestBody, hlc, h1, h2, h3, h4, h5, h6, h7, h8, hv]
                  · by_cases h9 : w.verifyRaises
                    · by_cases hv : w.vsCreatesTable <;> rcases db0 with _ | rows <;>
                        simp [ingestBody, hlc, h1, h2, h3, h4, h5, h6, h7, h8, h9, hv]
                    · by_cases hv : w.vsCreatesTable <;> rcases db0 with _ | rows <;>
                        simp [ingestBody, hlc, h1, h2, h3, h4, h5, h6, h7, h8, h9, hv]

/-- `run_ingestion` completes normally exactly when its `try` block ran
to completion. -/
theorem run_ingestion_finished_iff (w : IWorld) (db0 : Db) :
    (run_ingestion w db0).exit = .normal ↔ (ingestBody w db0).2.2 = .finished := by
  unfold run_ingestion
  rcases hb : ingestBody w db0 with ⟨t, db1, e⟩
  cases e <;> simp

/-- With a failing configuration load, `run_ingestion` only prints the
error report. -/
theorem ingest_trace_config_error (w : IWorld) (db0 : Db) (msg : String)
    (h : load_config w.env = .error msg) :
    run_ingestion w db0 = ⟨[.errorReport], db0, .code 1⟩ := by
  simp [run_ingestion, ingestBody, h]

/-- With a successfully loaded configuration, the `run_ingestion` trace
starts with the configuration event. -/
theorem run_ingestion_head (w : IWorld) (db0 : Db)
    (cfg : List (String × Option String) × List (String × Option String))
    (h : load_config w.env = .ok cfg) :
    (run_ingestion w db0).trace.head? = some .configLoad := by
  by_cases h1 : w.loadRaises
  · simp [run_ingestion, ingestBody, h, h1]
  · by_cases h2 : w.docs.isEmpty
    · simp [run_ingestion, ingestBody, h, h1, h2]
    · by_cases h3 : w.splitRaises
      · simp [run_ingestion, ingestBody, h, h1, h2, h3]
      · by_cases h4 : (w.split w.docs).isEmpty
        · simp [run_ingestion, ingestBody, h, h1, h2, h3, h4]
        · by_cases h5 : w.embedInitRaises
          · simp [run_ingestion, ingestBody, h, h1, h2, h3, h4, h5]
          · by_cases h6 : w.connectRaises
            · simp [run_ingestion, ingestBody, h, h1, h2, h3, h4, h5, h6]
            · by_cases h7 : w.vsInitRaises
              · simp [run_ingestion, ingestBody, h, h1, h2, h3, h4, h5, h6, h7]
              · by_cases h8 : w.addRaises
                · simp [run_ingestion, ingestBody, h, h1, h2, h3, h4, h5, h6, h7, h8]
                · by_cases h9 : w.verifyRaises
                  · simp [run_ingestion, ingestBody, h, h1, h2, h3, h4, h5, h6, h7, h8,
                      h9]
                  · simp [run_ingestion, ingestBody, h, h1, h2, h3, h4, h5, h6, h7, h8,
                      h9]

/-- C1: on the success path, `run_ingestion` performs exactly the
five-stage pipeline load → split → embed → store → verify, in that
order, finishing with a count of the stored records, with no stage
reordered or skipped. -/
theorem C1_five_stage_pipeline (w : IWorld) (db0 : Db)
    (h : (run_ingestion w db0).exit = .normal) :
    (run_ingestion w db0).trace.filter isStageI =
      [.loadDocs, .splitDocs, .embedChunks, .storeChunks,
       .verifyCount (w.split w.docs).length] := by
  have hfin := (run_ingestion_finished_iff w db0).1 h
  have heq := ingestBody_finished_eq w db0 hfin
  have htr : (run_ingestion w db0).trace = ingestSuccessTrace w db0 := by
    simp [run_ingestion, heq]
  rw [htr]
  unfold ingestSuccessTrace
  cases hv : w.vsCreatesTable
  · rcases db0 with _ | rows <;> rfl
  · rfl

/-- Witness for C1: a run where every external call succeeds. -/
theorem C1_five_stage_pipeline_witness :
    (run_ingestion iwOk (some ["old"])).exit = .normal ∧
    (run_ingestion iwOk (some ["old"])).trace.filter isStageI =
      [.loadDocs, .splitDocs, .embedChunks, .storeChunks,
       .verifyCount ((iwOk.split iwOk.docs).length)] :=
  ⟨by decide, C1_five_stage_pipeline iwOk (some ["old"]) (by decide)⟩

/-- C2: whenever any step of the `try` block raises, `run_ingestion`
performs no retry (no event is emitted twice), prints the error details
as its last action, terminates with exit status 1, and leaves the
database exactly as the failed prefix left it (no rollback or
restoration of the pre-run contents). -/
theorem C2_exception_no_recovery (w : IWorld) (db0 : Db)
    (h : (ingestBody w db0).2.2 = .raised) :
    (run_ingestion w db0).exit = .code 1 ∧
    (run_ingestion w db0).trace.getLast? = some .errorReport ∧
    (run_ingestion w db0).trace.Nodup ∧
    (run_ingestion w db0).db = (ingestBody w db0).2.1 := by
  have hnd := ingestBody_raised_nodup w db0
  rcases hb : ingestBody w db0 with ⟨t, db1, e⟩
  rw [hb] at h hnd
  dsimp only at h hnd
  subst h
  refine ⟨by simp [run_ingestion, hb], ?_, ?_, by simp [run_ingestion, hb]⟩
  · simp [run_ingestion, hb]
  · simpa [run_ingestion, hb] using hnd

/-- Witness for C2: `add_documents` raises after the table was dropped;
the process exits 1 and the pre-run rows are not restored. -/
theorem C2_exception_no_recovery_witness :
    (ingestBody iwAdd (some ["old"])).2.2 = .raised ∧
    ((run_ingestion iwAdd (some ["old"])).exit = .code 1 ∧
     (run_ingestion iwAdd (some ["old"])).trace.getLast? = some .errorReport ∧
     (run_ingestion iwAdd (some ["old"])).trace.Nodup ∧
     (run_ingestion iwAdd (some ["old"])).db = (ingestBody iwAdd (some ["old"])).2.1) ∧
    (run_ingestion iwAdd (some ["old"])).db ≠ some ["old"] :=
  ⟨by decide, C2_exception_no_recovery iwAdd (some ["old"]) (by decide), by decide⟩

/-- C9: when no `.txt` document is found under `./data`, `run_ingestion`
prints the warning and exits with status 1 before any contact with the
embedding API or the database: the run leaves the database untouched. -/
theorem C9_empty_data_early_exit (w : IWorld) (db0 : Db)
    (cfg : List (String × Option String) × List (String × Option String))
    (hc : load_config w.env = .ok cfg) (hl : w.loadRaises = false)
    (hd : w.docs = []) :
    (run_ingestion w db0).exit = .code 1 ∧
    (run_ingestion w db0).db = db0 ∧
    IEvent.emptyWarning ∈ (run_ingestion w db0).trace ∧
    (run_ingestion w db0).trace.filter isExternalI = [] := by
  simp [run_ingestion, ingestBody, hc, hl, hd, isExternalI]

/-- Witness for C9: the empty `./data` world. -/
theorem C9_empty_data_early_exit_witness :
    load_config iwEmpty.env = .ok (oci_config envAll, db_config envAll) ∧
    iwEmpty.loadRaises = false ∧ iwEmpty.docs = [] ∧
    ((run_ingestion iwEmpty (some ["old"])).exit = .code 1 ∧
     (run_ingestion iwEmpty (some ["old"])).db = some ["old"] ∧
     IEvent.emptyWarning ∈ (run_ingestion iwEmpty (some ["old"])).trace ∧
     (run_ingestion iwEmpty (some ["old"])).trace.filter isExternalI = []) :=
  ⟨rfl, rfl, rfl,
   C9_empty_data_early_exit iwEmpty (some ["old"]) (oci_config envAll, db_config envAll)
     rfl rfl rfl⟩

/-- C10: re-running ingestion is destructive: a successful run drops the
existing `rag_documents` table (or ignores the database error when it
does not exist) before storing the new chunks, and afterwards the table
holds exactly the chunks of that run, whatever it held before. -/
theorem C10_destructive_rerun (w : IWorld) (db0 : Db)
    (h : (run_ingestion w db0).exit = .normal) :
    (run_ingestion w db0).db = some (w.split w.docs) ∧
    ((run_ingestion w db0).trace.filter
        (fun e => e == IEvent.dropTable || e == IEvent.dropSkipped ||
          e == IEvent.storeChunks) = [IEvent.dropTable, IEvent.storeChunks] ∨
     (run_ingestion w db0).trace.filter
        (fun e => e == IEvent.dropTable || e == IEvent.dropSkipped ||
          e == IEvent.storeChunks) = [IEvent.dropSkipped, IEvent.storeChunks]) := by
  have hfin := (run_ingestion_finished_iff w db0).1 h
  have heq := ingestBody_finished_eq w db0 hfin
  have htr : (run_ingestion w db0).trace = ingestSuccessTrace w db0 := by
    simp [run_ingestion, heq]
  have hdb : (run_ingestion w db0).db = some (w.split w.docs) := by
    simp [run_ingestion, heq]
  refine ⟨hdb, ?_⟩
  rw [htr]
  unfold ingestSuccessTrace
  cases hv : w.vsCreatesTable
  · rcases db0 with _ | rows
    · right; rfl
    · left; rfl
  · left; rfl

/-- Witness for C10: a successful re-run over a table holding one old
row ends with the table holding exactly the new chunk. -/
theorem C10_destructive_rerun_witness :
    (run_ingestion iwOk (some ["old"])).exit = .normal ∧
    ((run_ingestion iwOk (some ["old"])).db = some (iwOk.split iwOk.docs) ∧
     ((run_ingestion iwOk (some ["old"])).trace.filter
        (fun e => e == IEvent.dropTable || e == IEvent.dropSkipped ||
          e == IEvent.storeChunks) = [IEvent.dropTable, IEvent.storeChunks] ∨
      (run_ingestion iwOk (some ["old"])).trace.filter
        (fun e => e == IEvent.dropTable || e == IEvent.dropSkipped ||
          e == IEvent.storeChunks) = [IEvent.dropSkipped, IEvent.storeChunks])) ∧
    (run_ingestion iwOk (some ["old"])).db ≠ some ["old"] :=
  ⟨by decide, C10_destructive_rerun iwOk (some ["old"]) (by decide), by decide⟩

/-! ## The chat app (claims C4, C5, C6 and half of C7) -/

/-- `initialize_services` is deterministic: on success it always returns
the top-3 retriever over `rag_documents`. -/
theorem initialize_services_svc (w : AWorld) (db : Db) :
    (initialize_services w db).2 = none ∨ (initialize_services w db).2 = some svc0 := by
  unfold initialize_services
  rcases hlc : load_config w.env with msg | cfg
  · left; rfl
  · rcases db with _ | rows <;> dsimp only <;> split_ifs <;> simp [svc0]

/-- `initialize_services` never calls `qa_chain.invoke`. -/
theorem initialize_services_no_invoke (w : AWorld) (db : Db) :
    AEvent.invokeAttempt ∉ (initialize_services w db).1 := by
  unfold initialize_services
  rcases hlc : load_config w.env with msg | cfg
  · simp
  · rcases db with _ | rows <;> dsimp only <;> split_ifs <;> simp

/-- One `initialize_services` call completes exactly once when it
succeeds and never when it fails. -/
theorem initialize_services_initDone (w : AWorld) (db : Db) :
    (initialize_services w db).1.count AEvent.initDone =
      if (initialize_services w db).2.isSome then 1 else 0 := by
  unfold initialize_services
  rcases hlc : load_config w.env with msg | cfg
  · rfl
  · rcases db with _ | rows <;> dsimp only <;> split_ifs <;> simp_all

/-- Query processing calls `qa_chain.invoke` exactly once for a
non-empty question and never for an empty one. -/
theorem process_q_events (w : AWorld) (svc : Services) (db : Db) (q : String) :
    (process_q w svc db q).1 = if q = "" then [] else [AEvent.invokeAttempt] := by
  unfold process_q
  split_ifs with hq
  · rfl
  · cases h : qa_invoke w svc db q <;> rfl

/-- No script run of `main_app.py` ever writes the database. -/
theorem script_run_db (w : AWorld) (db : Db) (st : AppSession) (q : String) :
    (script_run w db st q).db = db := by
  unfold script_run
  rcases st with ⟨_ | svc⟩
  · rcases hi : initialize_services w db with ⟨tr, _ | svc⟩ <;> dsimp only
  · dsimp only

/-- From a reachable session, a script run renders the output determined
by the world, the database and the question alone, and the session stays
reachable. -/
theorem script_run_characterize (w : AWorld) (db : Db) (st : AppSession) (q : String)
    (hst : GoodSession w db st) :
    (script_run w db st q).output = canonical_output w db q ∧
    GoodSession w db (script_run w db st q).session := by
  rcases hst with hnone | ⟨hsome, hinit⟩
  · rcases st with ⟨c⟩
    simp only [AppSession.mk.injEq] at hnone
    subst hnone
    have h2 := initialize_services_svc w db
    rcases hi : initialize_services w db with ⟨tr, osvc⟩
    rw [hi] at h2
    dsimp only at h2
    rcases osvc with _ | svc
    · constructor
      · simp [script_run, hi, canonical_output]
      · left
        simp [script_run, hi]
    · have hsvc : svc = svc0 := by simpa using h2
      subst hsvc
      constructor
      · simp [script_run, hi, canonical_output]
      · refine Or.inr ⟨?_, ?_⟩
        · simp [script_run, hi]
        · rw [hi]
  · rcases st with ⟨c⟩
    simp only [AppSession.mk.injEq] at hsome
    subst hsome
    constructor
    · simp [script_run, canonical_output, hinit]
    · exact Or.inr ⟨by simp [script_run], hinit⟩

/-- Over any sequence of questions from a reachable session, the outputs
are pointwise the canonical ones, the database is untouched, and the
final session is reachable. -/
theorem app_runs_characterize (w : AWorld) (db : Db) (qs : List String) :
    ∀ st, GoodSession w db st →
      (app_runs w db st qs).1.map Prod.snd = qs.map (canonical_output w db) ∧
      (app_runs w db st qs).2.2 = db ∧
      GoodSession w db (app_runs w db st qs).2.1 := by
  induction qs with
  | nil => exact fun st hst => ⟨rfl, rfl, hst⟩
  | cons q qs ih =>
    intro st hst
    have hc := script_run_characterize w db st q hst
    have hdb := script_run_db w db st q
    rcases hr : script_run w db st q with ⟨st2, db2, evs, out⟩
    rw [hr] at hc hdb
    dsimp only at hc hdb
    subst hdb
    obtain ⟨hout, hgood⟩ := hc
    have hrec := ih st2 hgood
    simp only [app_runs, hr]
    exact ⟨by simp [hrec.1, hout], hrec.2.1, hrec.2.2⟩

/-- The output of the last request of a session depends only on the
world, the database and its own question. -/
theorem app_runs_last_output (w : AWorld) (db : Db) (qs : List String) (q : String) :
    ((app_runs w db ⟨none⟩ (qs ++ [q])).1.getLast?).map Prod.snd =
      some (canonical_output w db q) := by
  have h := (app_runs_characterize w db (qs ++ [q]) ⟨none⟩ (Or.inl rfl)).1
  have h2 : ((app_runs w db ⟨none⟩ (qs ++ [q])).1.map Prod.snd).getLast? =
      some (canonical_output w db q) := by
    rw [h]; simp
  rwa [List.getLast?_map] at h2

/-- Unfolding the last request/response cycle of a session. -/
theorem app_runs_append_one (w : AWorld) (db : Db) (qs : List String) (q : String) :
    ∀ st, (app_runs w db st (qs ++ [q])).1 =
      (app_runs w db st qs).1 ++
        [((script_run w db ((app_runs w db st qs).2.1) q).events,
          (script_run w db ((app_runs w db st qs).2.1) q).output)] := by
  induction qs with
  | nil =>
    intro st
    rcases hr : script_run w db st q with ⟨st2, db2, evs, out⟩
    simp [app_runs, hr]
  | cons p ps ih =>
    intro st
    have hdb := script_run_db w db st p
    rcases hr : script_run w db st p with ⟨st2, db2, evs, out⟩
    rw [hr] at hdb
    dsimp only at hdb
    subst hdb
    simp only [List.cons_append, app_runs, hr]
    simp only [List.append_eq]
    rw [ih st2]

/-- The failing request calls `qa_chain.invoke` exactly once: no retry. -/
theorem app_runs_last_invoke_count (w : AWorld) (db : Db) (qs : List String) (q : String)
    (hinit : (initialize_services w db).2 = some svc0) (hq : q ≠ "") :
    ((app_runs w db ⟨none⟩ (qs ++ [q])).1.getLast?).map
      (fun p => p.1.count AEvent.invokeAttempt) = some 1 := by
  have happ := app_runs_append_one w db qs q ⟨none⟩
  have hgood := (app_runs_characterize w db qs ⟨none⟩ (Or.inl rfl)).2.2
  set st2 := (app_runs w db ⟨none⟩ qs).2.1 with hst2
  rw [happ, List.getLast?_concat]
  have hpe := process_q_events w svc0 db q
  rcases hgood with hnone | ⟨hsome, _⟩
  · rcases st2 with ⟨c⟩
    simp only [AppSession.mk.injEq] at hnone
    subst hnone
    have hni := initialize_services_no_invoke w db
    rcases hi : initialize_services w db with ⟨tr, osvc⟩
    rw [hi] at hinit hni
    dsimp only at hinit hni
    subst hinit
    simp only [script_run, hi]
    rcases hp : process_q w svc0 db q with ⟨evs, out⟩
    rw [hp] at hpe
    simp only [hq] at hpe
    simp only [if_false] at hpe
    subst hpe
    simp [List.count_append, List.count_eq_zero.mpr hni]
  · rcases st2 with ⟨c⟩
    simp only [AppSession.mk.injEq] at hsome
    subst hsome
    simp only [script_run]
    rcases hp : process_q w svc0 db q with ⟨evs, out⟩
    rw [hp] at hpe
    simp only [hq] at hpe
    simp only [if_false] at hpe
    subst hpe
    simp

/-- A script run with a warm `st.cache_resource` cache skips the
`initialize_services` body entirely. -/
theorem script_run_cached (w : AWorld) (db : Db) (svc : Services) (q : String) :
    script_run w db ⟨some svc⟩ q =
      ⟨⟨some svc⟩, db, (process_q w svc db q).1, (process_q w svc db q).2⟩ := by
  unfold script_run
  dsimp only

/-- A script run whose initialization fails caches nothing and stops. -/
theorem script_run_fresh_fail (w : AWorld) (db : Db) (q : String) (tr : List AEvent)
    (hi : initialize_services w db = (tr, none)) :
    script_run w db ⟨none⟩ q = ⟨⟨none⟩, db, tr, .initFailed⟩ := by
  unfold script_run
  rw [hi]

/-- A script run whose initialization succeeds stores the services in the
cache and processes the question. -/
theorem script_run_fresh_ok (w : AWorld) (db : Db) (q : String) (tr : List AEvent)
    (svc : Services) (hi : initialize_services w db = (tr, some svc)) :
    script_run w db ⟨none⟩ q =
      ⟨⟨some svc⟩, db, tr ++ (process_q w svc db q).1, (process_q w svc db q).2⟩ := by
  unfold script_run
  rw [hi]

/-- Completed-initialization count of a cons of cycles. -/
theorem countInitDone_cons (e : List AEvent) (o : Output)
    (rs : List (List AEvent × Output)) :
    countInitDone ((e, o) :: rs) = e.count AEvent.initDone + countInitDone rs := by
  simp [countInitDone, List.count_append]

/-- Query processing completes no initialization. -/
theorem process_q_initDone (w : AWorld) (svc : Services) (db : Db) (q : String) :
    (process_q w svc db q).1.count AEvent.initDone = 0 := by
  rw [process_q_events]
  split <;> rfl

/-- After the cache is warm, no further initialization ever completes. -/
theorem countInitDone_cached (w : AWorld) (db : Db) (qs : List String) :
    ∀ svc, countInitDone (app_runs w db ⟨some svc⟩ qs).1 = 0 := by
  induction qs with
  | nil => intro svc; rfl
  | cons q qs ih =>
    intro svc
    simp only [app_runs, script_run_cached]
    rw [countInitDone_cons, process_q_initDone, ih svc]

/-- C6 (amended): the chat app caches its services with
`st.cache_resource`: across any sequence of request/response cycles,
initialization completes at most once; once the `(qa_chain, vector_store)`
pair is cached it is reused by every later cycle instead of being
re-created. -/
theorem C6_amended_services_cached (w : AWorld) (db : Db) (qs : List String) :
    countInitDone (app_runs w db ⟨none⟩ qs).1 ≤ 1 := by
  induction qs with
  | nil => simp [countInitDone, app_runs]
  | cons q qs ih =>
    rcases hi : initialize_services w db with ⟨tr, osvc⟩
    have hcount := initialize_services_initDone w db
    rw [hi] at hcount
    dsimp only at hcount
    rcases osvc with _ | svc
    · simp only [app_runs, script_run_fresh_fail w db q tr hi]
      rw [countInitDone_cons]
      simp at hcount
      rw [hcount]
      simpa using ih
    · simp only [app_runs, script_run_fresh_ok w db q tr svc hi]
      rw [countInitDone_cons, List.count_append, process_q_initDone,
        countInitDone_cached w db qs svc]
      simp at hcount
      omega

/-- C6 (counterexample to the claim as stated): in a two-request session
the second request/response cycle performs no initialization work at all
— the first cycle initialized (nine initialization events, ending in a
completed `initialize_services`) and the resulting services object stays
cached in the session — so initialization is not performed anew for each
request/response cycle and the service objects are reused. -/
theorem C6_counterexample :
    ((app_runs awOk (some ["c1"]) ⟨none⟩ ["q1", "q2"]).1.map
        (fun p => p.1.filter isInitEvent))[1]? = some [] ∧
    ((app_runs awOk (some ["c1"]) ⟨none⟩ ["q1", "q2"]).1.map
        (fun p => p.1.filter isInitEvent))[0]? =
      some [.configLoad, .embedInit, .llmInit, .dbConnect, .tableCheck 1, .vsInit,
            .retrieverInit, .chainInit, .initDone] ∧
    (app_runs awOk (some ["c1"]) ⟨none⟩ ["q1", "q2"]).2.1 = ⟨some svc0⟩ := by
  refine ⟨rfl, rfl, rfl⟩

/-- C5: the chat app keeps no session state: the output produced for a
question — including the assembled retrieval-and-generation request —
is a function of that question and the current database contents alone,
identical under any two prior interaction histories. -/
theorem C5_no_session_state (w : AWorld) (db : Db) (qs1 qs2 : List String) (q : String) :
    ((app_runs w db ⟨none⟩ (qs1 ++ [q])).1.getLast?).map Prod.snd =
      some (canonical_output w db q) ∧
    ((app_runs w db ⟨none⟩ (qs2 ++ [q])).1.getLast?).map Prod.snd =
      some (canonical_output w db q) :=
  ⟨app_runs_last_output w db qs1 q, app_runs_last_output w db qs2 q⟩

/-- C4: when `qa_chain.invoke` raises for a submitted question, the app
only displays the exception message, calls `invoke` exactly once (no
retry), modifies no stored state, and keeps serving subsequent requests
with their canonical responses. -/
theorem C4_query_exception_handling (w : AWorld) (db : Db) (qs : List String) (q : String)
    (hfail : w.invokeFail q = true) (hq : q ≠ "")
    (hinit : (initialize_services w db).2 = some svc0) :
    ((app_runs w db ⟨none⟩ (qs ++ [q])).1.getLast?).map Prod.snd =
      some (.errorShown (w.errMsg q)) ∧
    ((app_runs w db ⟨none⟩ (qs ++ [q])).1.getLast?).map
      (fun p => p.1.count AEvent.invokeAttempt) = some 1 ∧
    (app_runs w db ⟨none⟩ (qs ++ [q])).2.2 = db ∧
    (∀ q2, ((app_runs w db ⟨none⟩ (qs ++ [q] ++ [q2])).1.getLast?).map Prod.snd =
      some (canonical_output w db q2)) := by
  have hcan : canonical_output w db q = .errorShown (w.errMsg q) := by
    simp [canonical_output, hinit, process_q, qa_invoke, hq, hfail]
  refine ⟨?_, ?_, ?_, ?_⟩
  · rw [app_runs_last_output w db qs q, hcan]
  · exact app_runs_last_invoke_count w db qs q hinit hq
  · exact (app_runs_characterize w db (qs ++ [q]) ⟨none⟩ (Or.inl rfl)).2.1
  · intro q2
    exact app_runs_last_output w db (qs ++ [q]) q2

/-- Witness for C4: `invoke` fails on the question `"boom"` after a first
successful request; the error message is displayed. -/
theorem C4_query_exception_handling_witness :
    awFail.invokeFail "boom" = true ∧ ("boom" : String) ≠ "" ∧
    (initialize_services awFail (some ["c1"])).2 = some svc0 ∧
    ((app_runs awFail (some ["c1"]) ⟨none⟩ (["q1"] ++ ["boom"])).1.getLast?).map
        Prod.snd = some (.errorShown (awFail.errMsg "boom")) :=
  ⟨by decide, by decide, rfl,
   (C4_query_exception_handling awFail (some ["c1"]) ["q1"] "boom" (by decide)
      (by decide) rfl).1⟩

/-- With a failing configuration load, `initialize_services` performs no
external call at all. -/
theorem initialize_services_config_error (w : AWorld) (db : Db) (msg : String)
    (h : load_config w.env = .error msg) :
    initialize_services w db = ([], none) := by
  unfold initialize_services
  rw [h]

/-- With a successfully loaded configuration, the `initialize_services`
trace starts with the configuration event. -/
theorem initialize_services_head (w : AWorld) (db : Db)
    (cfg : List (String × Option String) × List (String × Option String))
    (h : load_config w.env = .ok cfg) :
    (initialize_services w db).1.head? = some .configLoad := by
  unfold initialize_services
  rw [h]
  dsimp only
  rcases db with _ | rows <;> split_ifs <;> rfl

/-- C7: in both scripts the configuration is read and validated before
any contact with the embedding API, the LLM, or the database: an
external event can only occur when `load_config` returned successfully,
and then the configuration event heads the trace. -/
theorem C7_config_before_external (wI : IWorld) (dbI : Db) (wA : AWorld) (dbA : Db) :
    (∀ e ∈ (run_ingestion wI dbI).trace, isExternalI e = true →
       (∃ cfg, load_config wI.env = .ok cfg) ∧
       (run_ingestion wI dbI).trace.head? = some .configLoad) ∧
    (∀ e ∈ (initialize_services wA dbA).1, isExternalA e = true →
       (∃ cfg, load_config wA.env = .ok cfg) ∧
       (initialize_services wA dbA).1.head? = some .configLoad) := by
  constructor
  · intro e he hext
    rcases hlc : load_config wI.env with msg | cfg
    · rw [ingest_trace_config_error wI dbI msg hlc] at he
      simp at he
      subst he
      simp [isExternalI] at hext
    · exact ⟨⟨cfg, rfl⟩, run_ingestion_head wI dbI cfg hlc⟩
  · intro e he hext
    rcases hlc : load_config wA.env with msg | cfg
    · rw [initialize_services_config_error wA dbA msg hlc] at he
      simp at he
    · exact ⟨⟨cfg, rfl⟩, initialize_services_head wA dbA cfg hlc⟩

/-- Witness for C7: the database connection events of both scripts occur
with a successfully loaded configuration heading the trace. -/
theorem C7_config_before_external_witness :
    ((∃ cfg, load_config iwOk.env = .ok cfg) ∧
     (run_ingestion iwOk (some ["old"])).trace.head? = some .configLoad) ∧
    ((∃ cfg, load_config awOk.env = .ok cfg) ∧
     (initialize_services awOk (some ["c1"])).1.head? = some .configLoad) :=
  ⟨(C7_config_before_external iwOk (some ["old"]) awOk (some ["c1"])).1 .dbConnect
     (by decide) (by decide),
   (C7_config_before_external iwOk (some ["old"]) awOk (some ["c1"])).2 .dbConnect
     (by decide) (by decide)⟩
